import Mathlib

/-!
Shallow embedding of the Talos v1alpha1 machine-configuration data model
(`src/unnamed/part_000`, Go package `v1alpha1`) and of the storage service
(`src/internal/app/storaged/server.go`), together with theorems settling the
frozen claims about them.

Conventions of the embedding:
* Go strings become `String`; Go byte slices (`Base64Bytes`, PEM bytes) become
  `String` as well (their contents are opaque to this model).
* Go pointers become `Option`; Go slices become `List` (a nil slice and an
  empty slice are conflated, as the code never distinguishes them).
* Go maps (`map[string]*T`) become association lists `List (String × T)`
  looked up with `List.lookup` (first hit wins; Go maps cannot hold duplicate
  keys, so this is faithful on well-formed values).
* Unsigned integer fields become `Nat`; Go `int` fields become `Int`.
-/

namespace V1Alpha1

/-- `Route` (src/unnamed/part_000:1066-1071): a network route. -/
structure Route where
  RouteNetwork : String
  RouteGateway : String
deriving DecidableEq, Repr

/-- `Bond` (src/unnamed/part_000:944-1051): options of a bonded interface.
Option fields are opaque pass-through values. -/
structure Bond where
  BondInterfaces : List String
  BondARPIPTarget : List String
  BondMode : String
  BondHashPolicy : String
  BondLACPRate : String
  BondADActorSystem : String
  BondARPValidate : String
  BondARPAllTargets : String
  BondPrimary : String
  BondPrimaryReselect : String
  BondFailOverMac : String
  BondADSelect : String
  BondMIIMon : Nat
  BondUpDelay : Nat
  BondDownDelay : Nat
  BondARPInterval : Nat
  BondResendIGMP : Nat
  BondMinLinks : Nat
  BondLPInterval : Nat
  BondPacketsPerSlave : Nat
  BondNumPeerNotif : Nat
  BondTLBDynamicLB : Nat
  BondAllSlavesActive : Nat
  BondUseCarrier : Bool
  BondADActorSysPrio : Nat
  BondADUserPortKey : Nat
  BondPeerNotifyDelay : Nat
deriving DecidableEq, Repr

/-- `Vlan` (src/unnamed/part_000:1054-1063): VLAN settings for a device. -/
structure Vlan where
  VlanCIDR : String
  VlanRoutes : List Route
  VlanDHCP : Bool
  VlanID : Nat
deriving DecidableEq, Repr

/-- `DHCPOptions` (src/unnamed/part_000:937-940). -/
structure DHCPOptions where
  DHCPRouteMetric : Nat
deriving DecidableEq, Repr

/-- `Device` (src/unnamed/part_000:907-934): a network interface. -/
structure Device where
  DeviceInterface : String
  DeviceCIDR : String
  DeviceRoutes : List Route
  DeviceBond : Option Bond
  DeviceVlans : List Vlan
  DeviceMTU : Int
  DeviceDHCP : Bool
  DeviceIgnore : Bool
  DeviceDummy : Bool
  DeviceDHCPOptions : Option DHCPOptions
deriving DecidableEq, Repr

/-- `ExtraHost` (src/unnamed/part_000:899-904): a host entry for /etc/hosts. -/
structure ExtraHost where
  HostIP : String
  HostAliases : List String
deriving DecidableEq, Repr

/-- `NetworkConfig` (src/unnamed/part_000:534-597). -/
structure NetworkConfig where
  NetworkHostname : String
  NetworkInterfaces : List Device
  NameServers : List String
  ExtraHostEntries : List ExtraHost
deriving DecidableEq, Repr

/-- `specs.Mount` of the OCI runtime spec, as used by `KubeletConfig`; the Go
field `Type` is rendered `MountType` because `Type` is reserved in Lean. -/
structure Mount where
  Destination : String
  MountType : String
  Source : String
  Options : List String
deriving DecidableEq, Repr

/-- `KubeletConfig` (src/unnamed/part_000:512-531). -/
structure KubeletConfig where
  KubeletImage : String
  KubeletExtraArgs : List (String × String)
  KubeletExtraMounts : List Mount
deriving DecidableEq, Repr

/-- `x509.PEMEncodedCertificateAndKey`: a base64 certificate/key byte pair
(contents opaque to this model). -/
structure PEMEncodedCertificateAndKey where
  Crt : String
  Key : String
deriving DecidableEq, Repr

/-- `InstallConfig` (src/unnamed/part_000:600-634). -/
structure InstallConfig where
  InstallDisk : String
  InstallExtraKernelArgs : List String
  InstallImage : String
  InstallBootloader : Bool
  InstallWipe : Bool
deriving DecidableEq, Repr

/-- `TimeConfig` (src/unnamed/part_000:637-648). -/
structure TimeConfig where
  TimeDisabled : Bool
  TimeServers : List String
deriving DecidableEq, Repr

/-- `MachineFile` (src/unnamed/part_000:884-896). -/
structure MachineFile where
  FileContent : String
  FilePermissions : Nat
  FilePath : String
  FileOp : String
deriving DecidableEq, Repr

/-- `Env` (src/unnamed/part_000:881): a set of environment variables
(a Go type alias for `map[string]string`). -/
abbrev Env := List (String × String)

/-- `DiskPartition` (src/unnamed/part_000:871-878): options for a device
partition; `DiskSize` is in bytes, zero meaning "occupy full disk". -/
structure DiskPartition where
  DiskSize : Nat
  DiskMountPoint : String
deriving DecidableEq, Repr

/-- `MachineDisk` (src/unnamed/part_000:863-868). -/
structure MachineDisk where
  DeviceName : String
  DiskPartitions : List DiskPartition
deriving DecidableEq, Repr

/-- `RegistryMirrorConfig` (src/unnamed/part_000:1074-1080). -/
structure RegistryMirrorConfig where
  MirrorEndpoints : List String
deriving DecidableEq, Repr

/-- `RegistryAuthConfig` (src/unnamed/part_000:1091-1108): the four optional
authentication fields, each empty when absent. -/
structure RegistryAuthConfig where
  RegistryUsername : String
  RegistryPassword : String
  RegistryAuth : String
  RegistryIdentityToken : String
deriving DecidableEq, Repr

/-- `RegistryTLSConfig` (src/unnamed/part_000:1111-1125). -/
structure RegistryTLSConfig where
  TLSClientIdentity : Option PEMEncodedCertificateAndKey
  TLSCA : String
  TLSInsecureSkipVerify : Bool
deriving DecidableEq, Repr

/-- `RegistryConfig` (src/unnamed/part_000:1083-1088): auth & TLS per registry. -/
structure RegistryConfig where
  RegistryTLS : Option RegistryTLSConfig
  RegistryAuth : Option RegistryAuthConfig
deriving DecidableEq, Repr

/-- `RegistriesConfig` (src/unnamed/part_000:651-668): image pull options.
Keys are registry host names, or the catch-all name `*`. -/
structure RegistriesConfig where
  RegistryMirrors : List (String × RegistryMirrorConfig)
  RegistryConfig : List (String × RegistryConfig)
deriving DecidableEq, Repr

/-- `MachineConfig` (src/unnamed/part_000:278-404). -/
structure MachineConfig where
  MachineType : String
  MachineToken : String
  MachineCA : Option PEMEncodedCertificateAndKey
  MachineCertSANs : List String
  MachineKubelet : Option KubeletConfig
  MachineNetwork : Option NetworkConfig
  MachineDisks : List MachineDisk
  MachineInstall : Option InstallConfig
  MachineFiles : List MachineFile
  MachineEnv : List (String × String)
  MachineTime : Option TimeConfig
  MachineSysctls : List (String × String)
  MachineRegistries : RegistriesConfig
deriving DecidableEq, Repr

/-- `GoURL` models the Go standard library `url.URL` as stored by `Endpoint`
(src/unnamed/part_000:684-687): `Host` includes the optional port, exactly as
in `net/url`. Components are kept as character lists for ease of reasoning. -/
structure GoURL where
  Scheme : List Char
  Host : List Char
  Path : List Char
deriving DecidableEq, Repr

/-- `Endpoint` (src/unnamed/part_000:684-687): wraps the parsed URL. -/
structure Endpoint where
  url : GoURL
deriving DecidableEq, Repr

/-- `ControlPlaneConfig` (src/unnamed/part_000:713-725). -/
structure ControlPlaneConfig where
  Endpoint : Option Endpoint
  LocalAPIServerPort : Int
deriving DecidableEq, Repr

/-- `APIServerConfig` (src/unnamed/part_000:728-738). -/
structure APIServerConfig where
  ContainerImage : String
  ExtraArgsConfig : List (String × String)
  CertSANs : List String
deriving DecidableEq, Repr

/-- `ControllerManagerConfig` (src/unnamed/part_000:741-748). -/
structure ControllerManagerConfig where
  ContainerImage : String
  ExtraArgsConfig : List (String × String)
deriving DecidableEq, Repr

/-- `ProxyConfig` (src/unnamed/part_000:751-762). -/
structure ProxyConfig where
  ContainerImage : String
  ModeConfig : String
  ExtraArgsConfig : List (String × String)
deriving DecidableEq, Repr

/-- `SchedulerConfig` (src/unnamed/part_000:765-772). -/
structure SchedulerConfig where
  ContainerImage : String
  ExtraArgsConfig : List (String × String)
deriving DecidableEq, Repr

/-- `EtcdConfig` (src/unnamed/part_000:775-808). -/
structure EtcdConfig where
  ContainerImage : String
  RootCA : Option PEMEncodedCertificateAndKey
  EtcdExtraArgs : List (String × String)
deriving DecidableEq, Repr

/-- `CNIConfig` (src/unnamed/part_000:844-851). -/
structure CNIConfig where
  CNIName : String
  CNIUrls : List String
deriving DecidableEq, Repr

/-- `ClusterNetworkConfig` (src/unnamed/part_000:811-841). -/
structure ClusterNetworkConfig where
  CNI : Option CNIConfig
  DNSDomain : String
  PodSubnet : List String
  ServiceSubnet : List String
deriving DecidableEq, Repr

/-- `AdminKubeconfigConfig` (src/unnamed/part_000:854-859); the lifetime is a
Go `time.Duration`, i.e. a signed integer of nanoseconds. -/
structure AdminKubeconfigConfig where
  AdminKubeconfigCertLifetime : Int
deriving DecidableEq, Repr

/-- `PodCheckpointer` (src/unnamed/part_000:671-675). -/
structure PodCheckpointer where
  PodCheckpointerImage : String
deriving DecidableEq, Repr

/-- `CoreDNS` (src/unnamed/part_000:678-682). -/
structure CoreDNS where
  CoreDNSImage : String
deriving DecidableEq, Repr

/-- `ClusterConfig` (src/unnamed/part_000:407-509). -/
structure ClusterConfig where
  ControlPlane : Option ControlPlaneConfig
  ClusterName : String
  ClusterNetwork : Option ClusterNetworkConfig
  BootstrapToken : String
  ClusterAESCBCEncryptionSecret : String
  ClusterCA : Option PEMEncodedCertificateAndKey
  APIServerConfig : Option APIServerConfig
  ControllerManagerConfig : Option ControllerManagerConfig
  ProxyConfig : Option ProxyConfig
  SchedulerConfig : Option SchedulerConfig
  EtcdConfig : Option EtcdConfig
  PodCheckpointerConfig : Option PodCheckpointer
  CoreDNSConfig : Option CoreDNS
  ExtraManifests : List String
  ExtraManifestHeaders : List (String × String)
  AdminKubeconfigConfig : AdminKubeconfigConfig
  AllowSchedulingOnMasters : Bool
deriving DecidableEq, Repr

/-- `Config` (src/unnamed/part_000:247-275): the v1alpha1 configuration root. -/
structure Config where
  ConfigVersion : String
  ConfigDebug : Bool
  ConfigPersist : Bool
  MachineConfig : Option MachineConfig
  ClusterConfig : Option ClusterConfig
deriving DecidableEq, Repr

/-- The Go zero value `Config\x7b\x7d` allocated by the registered factory
(src/unnamed/part_000:32): every string empty, every flag false, every
pointer nil. -/
def goZeroConfig : Config :=
  { ConfigVersion := ""
    ConfigDebug := false
    ConfigPersist := false
    MachineConfig := none
    ClusterConfig := none }

/-- The factory function registered in `init` (src/unnamed/part_000:31-35):
`func(version string) (target interface\x7b\x7d) \x7b target = &Config\x7b\x7d; return target \x7d`.
It ignores its `version` argument and returns a fresh zero-value `Config`. -/
def v1alpha1Factory (version : String) : Config := goZeroConfig

/-- The registrations performed at package initialization
(src/unnamed/part_000:30-36): a single `config.Register("v1alpha1", ...)` call. -/
def registeredFactories : List (String × (String → Config)) :=
  [("v1alpha1", v1alpha1Factory)]

/-- `util.Disk` of go-blockdevice, as consumed by `Server.Disks`
(src/internal/app/storaged/server.go:29-34): only the three fields the
server reads are modelled. -/
structure UtilDisk where
  DeviceName : String
  Model : String
  Size : Nat
deriving DecidableEq, Repr

/-- `storage.Disk`, the protobuf message built by `Server.Disks`
(src/internal/app/storaged/server.go:30-34). -/
structure StorageDisk where
  DeviceName : String
  Model : String
  Size : Nat
deriving DecidableEq, Repr

/-- `storage.DisksResponse` (src/internal/app/storaged/server.go:37-39). -/
structure DisksResponse where
  Disks : List StorageDisk
deriving DecidableEq, Repr

/-- `Server.Disks` (src/internal/app/storaged/server.go:21-42), with the
outcome of the external enumerator `util.GetDisks()` passed as an explicit
argument: on error the same error is returned with no response; on success
each enumerated disk is copied field-by-field into the response, in order. -/
def serverDisks (getDisksResult : Except String (List UtilDisk)) :
    Except String DisksResponse :=
  match getDisksResult with
  | Except.error e => Except.error e
  | Except.ok disks =>
      Except.ok { Disks := disks.map (fun d => { DeviceName := d.DeviceName
                                                 Model := d.Model
                                                 Size := d.Size }) }

/-- `parseURL` — Modelled from the spec: the URL parser used by
`Endpoint.UnmarshalYAML` is the Go standard library `url.Parse`, which is not
part of this repository. The spec's Endpoint invariant speaks of
scheme/host/port/path, so the model covers the authority form
`scheme://host[:port]/path`: the scheme is the (non-empty) text before the
first `:`, which must be followed by `//`; the host (with optional port, as
in `net/url` where `URL.Host` includes the port) runs to the next `/`; the
remainder is the path. Anything else fails to parse. -/
def parseURL (s : List Char) : Option GoURL :=
  match s.dropWhile (fun c => c ≠ ':') with
  | ':' :: '/' :: '/' :: r =>
      if s.takeWhile (fun c => c ≠ ':') = [] then none
      else some { Scheme := s.takeWhile (fun c => c ≠ ':')
                  Host := r.takeWhile (fun c => c ≠ '/')
                  Path := r.dropWhile (fun c => c ≠ '/') }
  | _ => none

/-- `urlString` — Modelled from the spec: the Go standard library
`URL.String` used by `Endpoint.MarshalYAML`, restricted to the grammar of
`parseURL`: it reassembles `scheme://host path`. -/
def urlString (u : GoURL) : List Char :=
  u.Scheme ++ ':' :: '/' :: '/' :: (u.Host ++ u.Path)

/-- The host portion of `GoURL.Host` before any `:`, as `url.URL.Hostname()`. -/
def GoURL.Hostname (u : GoURL) : List Char :=
  u.Host.takeWhile (fun c => c ≠ ':')

/-- The port portion of `GoURL.Host` after the `:` (empty when absent), as
`url.URL.Port()`. -/
def GoURL.Port (u : GoURL) : List Char :=
  (u.Host.dropWhile (fun c => c ≠ ':')).drop 1

/-- `Endpoint.UnmarshalYAML` (src/unnamed/part_000:690-705) with the YAML
scalar already extracted to a string: parse the text as a URL; on failure
return the error ("InvalidURL" in the spec's taxonomy) without assigning the
receiver; on success assign the parsed URL wholesale. -/
def endpointUnmarshalYAML (s : String) : Except String Endpoint :=
  match parseURL s.data with
  | some u => Except.ok { url := u }
  | none => Except.error "InvalidURL"

/-- `Endpoint.MarshalYAML` (src/unnamed/part_000:707-710): returns the
canonical string form of the stored URL. -/
def endpointMarshalYAML (e : Endpoint) : String :=
  String.mk (urlString e.url)

/-- A successful parse reassembles to exactly the input text: the parsed
components are contiguous slices of the input. -/
theorem urlString_parseURL (s : List Char) (u : GoURL)
    (h : parseURL s = some u) : urlString u = s := by
  unfold parseURL at h
  split at h
  next r heq =>
    split at h
    · exact Option.noConfusion h
    · injection h with h2
      subst h2
      unfold urlString
      simp only
      rw [List.takeWhile_append_dropWhile, ← heq, List.takeWhile_append_dropWhile]
  next => exact Option.noConfusion h

/-- Claim C9: the factory registered at startup under the tag "v1alpha1"
produces, for every version-string argument, the zero-value `Config` (empty
version string, debug and persist false, no machine and no cluster section),
ignoring its argument. -/
theorem claim9_factory_zero_value (version : String) :
    ("v1alpha1", v1alpha1Factory) ∈ registeredFactories ∧
    (v1alpha1Factory version).ConfigVersion = "" ∧
    (v1alpha1Factory version).ConfigDebug = false ∧
    (v1alpha1Factory version).ConfigPersist = false ∧
    (v1alpha1Factory version).MachineConfig = none ∧
    (v1alpha1Factory version).ClusterConfig = none ∧
    ∀ w : String, v1alpha1Factory version = v1alpha1Factory w := by
  refine ⟨?_, rfl, rfl, rfl, rfl, rfl, fun w => rfl⟩
  simp [registeredFactories]

/-- Claim C10: `Server.Disks` propagates an enumeration error unchanged with
no response, and on success returns exactly one response entry per enumerated
disk, in enumeration order, copying `DeviceName`, `Model` and `Size`
unchanged. -/
theorem claim10_serverDisks_spec (res : Except String (List UtilDisk)) :
    (∀ e, res = Except.error e → serverDisks res = Except.error e) ∧
    (∀ l, res = Except.ok l →
      ∃ resp, serverDisks res = Except.ok resp ∧
        resp.Disks.length = l.length ∧
        ∀ i, ∀ h1 : i < resp.Disks.length, ∀ h2 : i < l.length,
          (resp.Disks.get ⟨i, h1⟩).DeviceName = (l.get ⟨i, h2⟩).DeviceName ∧
          (resp.Disks.get ⟨i, h1⟩).Model = (l.get ⟨i, h2⟩).Model ∧
          (resp.Disks.get ⟨i, h1⟩).Size = (l.get ⟨i, h2⟩).Size) := by
  constructor
  · intro e he
    subst he
    rfl
  · intro l hl
    subst hl
    refine ⟨_, rfl, by simp [serverDisks], ?_⟩
    intro i h1 h2
    simp [serverDisks]

/-- Witness for C10 at a concrete failing enumeration: the same error comes
back. -/
theorem claim10_serverDisks_witness :
    serverDisks (Except.error "enumeration failed") =
      Except.error "enumeration failed" :=
  (claim10_serverDisks_spec (Except.error "enumeration failed")).1
    "enumeration failed" rfl

/-- Claim C4: decoding a syntactically valid URL text succeeds, and
re-encoding the decoded Endpoint reproduces the text exactly — hence equal
in scheme, host, port and path; re-parsing the encoded form recovers the
identical URL value. -/
theorem claim4_endpoint_roundtrip (s : String) (u : GoURL)
    (h : parseURL s.data = some u) :
    endpointUnmarshalYAML s = Except.ok { url := u } ∧
    endpointMarshalYAML { url := u } = s ∧
    (∀ u2, parseURL (endpointMarshalYAML { url := u }).data = some u2 →
      u2.Scheme = u.Scheme ∧ u2.Hostname = u.Hostname ∧
      u2.Port = u.Port ∧ u2.Path = u.Path) := by
  have hs : urlString u = s.data := urlString_parseURL s.data u h
  have hm : endpointMarshalYAML { url := u } = s := by
    show String.mk (urlString u) = s
    rw [hs]
  refine ⟨?_, hm, ?_⟩
  · unfold endpointUnmarshalYAML
    rw [h]
  · intro u2 h2
    rw [hm, h] at h2
    injection h2 with h3
    subst h3
    exact ⟨rfl, rfl, rfl, rfl⟩

/-- Witness for C4 at the spec's concrete control-plane endpoint text. -/
theorem claim4_endpoint_roundtrip_witness :
    endpointUnmarshalYAML "https://1.2.3.4:443/api" =
      Except.ok { url := { Scheme := "https".data
                           Host := "1.2.3.4:443".data
                           Path := "/api".data } } :=
  (claim4_endpoint_roundtrip "https://1.2.3.4:443/api"
    { Scheme := "https".data, Host := "1.2.3.4:443".data, Path := "/api".data }
    (by decide)).1

/-- Claim C8: decoding fails with `InvalidURL` exactly when the text does not
parse as a URL; on success the whole parsed URL is assigned; every decode
either errors or yields a fully parsed Endpoint — never a partial value. -/
theorem claim8_endpoint_decode_error (s : String) :
    (parseURL s.data = none →
      endpointUnmarshalYAML s = Except.error "InvalidURL") ∧
    (∀ u, parseURL s.data = some u →
      endpointUnmarshalYAML s = Except.ok { url := u }) ∧
    (endpointUnmarshalYAML s = Except.error "InvalidURL" ∨
      ∃ u, parseURL s.data = some u ∧
        endpointUnmarshalYAML s = Except.ok { url := u }) := by
  unfold endpointUnmarshalYAML
  refine ⟨?_, ?_, ?_⟩
  · intro hn
    rw [hn]
  · intro u hu
    rw [hu]
  · cases hp : parseURL s.data with
    | none => exact Or.inl rfl
    | some u => exact Or.inr ⟨u, rfl, rfl⟩

/-- Witness for C8 at a concrete non-URL text (no scheme separator). -/
theorem claim8_endpoint_decode_error_witness :
    endpointUnmarshalYAML "not a url" = Except.error "InvalidURL" :=
  (claim8_endpoint_decode_error "not a url").1 (by decide)

/-- `resolveMirror` — Modelled from the spec: the mirror resolution consuming
`RegistriesConfig` (the generated CRI registry configuration) is not under
src/; per the spec and the `RegistryMirrors` field documentation
(src/unnamed/part_000:657-659, name `*` catches any registry names not
specified explicitly): exact match on the host name first, else the `*`
entry, else none. -/
def resolveMirror (rc : RegistriesConfig) (hostName : String) :
    Option RegistryMirrorConfig :=
  match rc.RegistryMirrors.lookup hostName with
  | some m => some m
  | none => rc.RegistryMirrors.lookup "*"

/-- The resolved credential forms of the registry auth model. -/
inductive Credential where
  | anonymous
  | basic (username password : String)
  | preEncoded (auth : String)
  | identityToken (token : String)
deriving DecidableEq, Repr

/-- `effectiveAuth` — Modelled from the spec: the consumer of
`RegistryAuthConfig` is not under src/; per the spec's documented tie-break:
a non-empty `identityToken` is used exclusively; else a non-empty pre-encoded
`auth`; else username+password when both are non-empty; else anonymous. -/
def effectiveAuth (a : RegistryAuthConfig) : Credential :=
  if a.RegistryIdentityToken ≠ "" then
    Credential.identityToken a.RegistryIdentityToken
  else if a.RegistryAuth ≠ "" then
    Credential.preEncoded a.RegistryAuth
  else if a.RegistryUsername ≠ "" ∧ a.RegistryPassword ≠ "" then
    Credential.basic a.RegistryUsername a.RegistryPassword
  else
    Credential.anonymous

/-- Claim C2: mirror resolution returns the exact-name entry when present
(shadowing any wildcard), else the `*` entry, else none. -/
theorem claim2_resolveMirror_spec (rc : RegistriesConfig) (hostName : String) :
    (∀ m, rc.RegistryMirrors.lookup hostName = some m →
      resolveMirror rc hostName = some m) ∧
    (rc.RegistryMirrors.lookup hostName = none →
      resolveMirror rc hostName = rc.RegistryMirrors.lookup "*") ∧
    (rc.RegistryMirrors.lookup hostName = none →
      rc.RegistryMirrors.lookup "*" = none →
      resolveMirror rc hostName = none) := by
  unfold resolveMirror
  refine ⟨?_, ?_, ?_⟩
  · intro m hm
    rw [hm]
  · intro hn
    rw [hn]
  · intro hn hw
    rw [hn, hw]

/-- Witness for C2 at the spec's example: with entries for `docker.io` and
`*`, the host `docker.io` resolves to its exact entry, not the wildcard. -/
theorem claim2_resolveMirror_witness :
    resolveMirror
      { RegistryMirrors :=
          [("docker.io", { MirrorEndpoints := ["https://registry.local"] }),
           ("*", { MirrorEndpoints := ["https://fallback.local"] })]
        RegistryConfig := [] }
      "docker.io" = some { MirrorEndpoints := ["https://registry.local"] } :=
  (claim2_resolveMirror_spec
    { RegistryMirrors :=
        [("docker.io", { MirrorEndpoints := ["https://registry.local"] }),
         ("*", { MirrorEndpoints := ["https://fallback.local"] })]
      RegistryConfig := [] }
    "docker.io").1 { MirrorEndpoints := ["https://registry.local"] } (by decide)

/-- Claim C3: auth resolution picks exactly one credential form with
precedence identityToken over pre-encoded auth over username/password,
falling back to anonymous. -/
theorem claim3_effectiveAuth_spec (a : RegistryAuthConfig) :
    (a.RegistryIdentityToken ≠ "" →
      effectiveAuth a = Credential.identityToken a.RegistryIdentityToken) ∧
    (a.RegistryIdentityToken = "" → a.RegistryAuth ≠ "" →
      effectiveAuth a = Credential.preEncoded a.RegistryAuth) ∧
    (a.RegistryIdentityToken = "" → a.RegistryAuth = "" →
      a.RegistryUsername ≠ "" → a.RegistryPassword ≠ "" →
      effectiveAuth a = Credential.basic a.RegistryUsername a.RegistryPassword) ∧
    (a.RegistryIdentityToken = "" → a.RegistryAuth = "" →
      ¬(a.RegistryUsername ≠ "" ∧ a.RegistryPassword ≠ "") →
      effectiveAuth a = Credential.anonymous) := by
  refine ⟨?_, ?_, ?_, ?_⟩
  · intro h1
    simp [effectiveAuth, h1]
  · intro h1 h2
    simp [effectiveAuth, h1, h2]
  · intro h1 h2 h3 h4
    simp [effectiveAuth, h1, h2, h3, h4]
  · intro h1 h2 h3
    simp [effectiveAuth, h1, h2, h3]

/-- Witness for C3 at the spec's example: both `identityToken` and
`username/password` populated resolves to the identity-token form. -/
theorem claim3_effectiveAuth_witness :
    effectiveAuth { RegistryUsername := "username"
                    RegistryPassword := "password"
                    RegistryAuth := ""
                    RegistryIdentityToken := "token123" } =
      Credential.identityToken "token123" :=
  (claim3_effectiveAuth_spec { RegistryUsername := "username"
                               RegistryPassword := "password"
                               RegistryAuth := ""
                               RegistryIdentityToken := "token123" }).1
    (by decide)

/-- The route merge performed by the network provisioning layer is outside
src/; modelled from the source documentation of `Device.DeviceRoutes`
(src/unnamed/part_000:912-915): "If used in combination with DHCP, these
routes will be appended to routes returned by DHCP server" — i.e. the
statically configured routes are appended after the DHCP-supplied ones,
order preserved within each group and no deduplication performed. -/
def effectiveRoutes (d : Device) (dhcpRoutes : List Route) : List Route :=
  dhcpRoutes ++ d.DeviceRoutes

/-- Counterexample to claim C1 as stated: for a device with static routes
`[R1]` and DHCP routes `[R2, R3]`, the merge yields `[R2, R3, R1]` — the
static routes are appended after the DHCP routes, not before them — so the
result differs from the claimed `[R1, R2, R3]`. -/
theorem claim1_counterexample :
    effectiveRoutes
      { DeviceInterface := "eth0"
        DeviceCIDR := ""
        DeviceRoutes := [{ RouteNetwork := "10.0.0.0/8", RouteGateway := "10.0.0.1" }]
        DeviceBond := none
        DeviceVlans := []
        DeviceMTU := 0
        DeviceDHCP := true
        DeviceIgnore := false
        DeviceDummy := false
        DeviceDHCPOptions := none }
      [{ RouteNetwork := "172.16.0.0/12", RouteGateway := "172.16.0.1" },
       { RouteNetwork := "192.168.0.0/16", RouteGateway := "192.168.0.1" }] =
      [{ RouteNetwork := "172.16.0.0/12", RouteGateway := "172.16.0.1" },
       { RouteNetwork := "192.168.0.0/16", RouteGateway := "192.168.0.1" },
       { RouteNetwork := "10.0.0.0/8", RouteGateway := "10.0.0.1" }] ∧
    effectiveRoutes
      { DeviceInterface := "eth0"
        DeviceCIDR := ""
        DeviceRoutes := [{ RouteNetwork := "10.0.0.0/8", RouteGateway := "10.0.0.1" }]
        DeviceBond := none
        DeviceVlans := []
        DeviceMTU := 0
        DeviceDHCP := true
        DeviceIgnore := false
        DeviceDummy := false
        DeviceDHCPOptions := none }
      [{ RouteNetwork := "172.16.0.0/12", RouteGateway := "172.16.0.1" },
       { RouteNetwork := "192.168.0.0/16", RouteGateway := "192.168.0.1" }] ≠
      [{ RouteNetwork := "10.0.0.0/8", RouteGateway := "10.0.0.1" },
       { RouteNetwork := "172.16.0.0/12", RouteGateway := "172.16.0.1" },
       { RouteNetwork := "192.168.0.0/16", RouteGateway := "192.168.0.1" }] := by
  decide

/-- Claim C1 amended: the merged route list is the DHCP-supplied routes first,
followed by the device's statically configured routes appended after them,
preserving input order within each group and performing no deduplication
(the result's length is always the sum of the two input lengths). -/
theorem claim1_amended_routes (d : Device) (dhcpRoutes : List Route) :
    effectiveRoutes d dhcpRoutes = dhcpRoutes ++ d.DeviceRoutes ∧
    (effectiveRoutes d dhcpRoutes).length =
      dhcpRoutes.length + d.DeviceRoutes.length :=
  ⟨rfl, List.length_append dhcpRoutes d.DeviceRoutes⟩

/-- Modelled from the spec: "otherwise a defined default" — the conventional
Ethernet default MTU. -/
def defaultMTU : Int := 1500

/-- `effectiveMTU` — Modelled from the spec: the MTU merge performed by the
network provisioning layer is outside src/; per the spec and the source
documentation of `Device.DeviceMTU` (src/unnamed/part_000:920-923: with DHCP,
the static value overrides any MTU settings returned from the DHCP server):
the static `mtu` wins when non-zero, else the DHCP-provided MTU when
non-zero, else the default. -/
def effectiveMTU (d : Device) (dhcpMTU : Int) : Int :=
  if d.DeviceMTU ≠ 0 then d.DeviceMTU
  else if dhcpMTU ≠ 0 then dhcpMTU
  else defaultMTU

/-- Claim C7: the static MTU overrides DHCP when non-zero; a zero static MTU
defers to the DHCP-provided value; with neither available the defined
default is returned. -/
theorem claim7_effectiveMTU_spec (d : Device) (dhcpMTU : Int) :
    (d.DeviceMTU ≠ 0 → effectiveMTU d dhcpMTU = d.DeviceMTU) ∧
    (d.DeviceMTU = 0 → dhcpMTU ≠ 0 → effectiveMTU d dhcpMTU = dhcpMTU) ∧
    (d.DeviceMTU = 0 → dhcpMTU = 0 → effectiveMTU d dhcpMTU = defaultMTU) := by
  refine ⟨?_, ?_, ?_⟩
  · intro h1
    simp [effectiveMTU, h1]
  · intro h1 h2
    simp [effectiveMTU, h1, h2]
  · intro h1 h2
    simp [effectiveMTU, h1, h2]

/-- Witness for C7: a static MTU of 9000 overrides a DHCP-provided 1400. -/
theorem claim7_effectiveMTU_witness :
    effectiveMTU
      { DeviceInterface := "eth0"
        DeviceCIDR := ""
        DeviceRoutes := []
        DeviceBond := none
        DeviceVlans := []
        DeviceMTU := 9000
        DeviceDHCP := true
        DeviceIgnore := false
        DeviceDummy := false
        DeviceDHCPOptions := none } 1400 = 9000 :=
  (claim7_effectiveMTU_spec
    { DeviceInterface := "eth0"
      DeviceCIDR := ""
      DeviceRoutes := []
      DeviceBond := none
      DeviceVlans := []
      DeviceMTU := 9000
      DeviceDHCP := true
      DeviceIgnore := false
      DeviceDummy := false
      DeviceDHCPOptions := none } 1400).1 (by decide)

/-- Decimal value of a digit string. -/
def decimalValue (l : List Char) : Nat :=
  l.foldl (fun a c => a * 10 + (c.toNat - 48)) 0

/-- Modelled from the spec: syntactic well-formedness of one dotted-quad
octet (used by the CIDR/route syntax checks of `validate`). -/
def wellFormedIPv4Octet (l : List Char) : Bool :=
  !l.isEmpty && l.length ≤ 3 && l.all (fun c => c.isDigit) && decimalValue l ≤ 255

/-- Modelled from the spec: syntactic well-formedness of a dotted-quad IPv4
address. -/
def wellFormedIPv4 (l : List Char) : Bool :=
  let parts := l.splitOn '.'
  parts.length = 4 && parts.all wellFormedIPv4Octet

/-- Modelled from the spec: "proper CIDR notation (192.168.2.5/24)" — an IPv4
address, a slash, and a prefix length of at most 32. -/
def wellFormedCIDR (s : String) : Bool :=
  match s.data.splitOn '/' with
  | [ip, plen] =>
      wellFormedIPv4 ip && !plen.isEmpty &&
        plen.all (fun c => c.isDigit) && decimalValue plen ≤ 32
  | _ => false

/-- Modelled from the spec: well-formed route network/gateway syntax. -/
def wellFormedRoute (r : Route) : Bool :=
  wellFormedCIDR r.RouteNetwork && wellFormedIPv4 r.RouteGateway.data

/-- The rules of the spec's `Violation` taxonomy for the network device
model; the path/detail parts are carried as constructor arguments where a
device can report the same rule at several places. -/
inductive Violation where
  | cidrDhcpExclusive
  | dummyBondConflict
  | emptyBondInterfaces
  | duplicateVlanID
  | malformedCIDR (cidr : String)
  | malformedRoute (network gateway : String)
  | vlanCidrDhcpExclusive (vlanID : Nat)
deriving DecidableEq, Repr

/-- Modelled from the spec: the cidr/dhcp mutual-exclusivity check — a
non-empty `cidr` together with `dhcp=true` is a violation; both empty is
valid (SLAAC-only). -/
def deviceCidrDhcpViolations (d : Device) : List Violation :=
  if d.DeviceCIDR ≠ "" ∧ d.DeviceDHCP = true then
    [Violation.cidrDhcpExclusive]
  else []

/-- Modelled from the spec: `bond` must be absent when `dummy` is set. -/
def deviceDummyBondViolations (d : Device) : List Violation :=
  if d.DeviceDummy = true ∧ d.DeviceBond.isSome then
    [Violation.dummyBondConflict]
  else []

/-- Modelled from the spec: `Bond.interfaces` must be non-empty when `bond`
is present. -/
def deviceBondIfaceViolations (d : Device) : List Violation :=
  match d.DeviceBond with
  | some b => if b.BondInterfaces = [] then [Violation.emptyBondInterfaces] else []
  | none => []

/-- Modelled from the spec: VLAN ID uniqueness within the device. -/
def deviceVlanIDViolations (d : Device) : List Violation :=
  if (d.DeviceVlans.map Vlan.VlanID).Nodup then []
  else [Violation.duplicateVlanID]

/-- Modelled from the spec: well-formed CIDR syntax, checked only when a
CIDR is given. -/
def deviceCidrSyntaxViolations (d : Device) : List Violation :=
  if d.DeviceCIDR ≠ "" ∧ wellFormedCIDR d.DeviceCIDR = false then
    [Violation.malformedCIDR d.DeviceCIDR]
  else []

/-- Modelled from the spec: well-formed route network/gateway syntax, one
violation per offending route. -/
def deviceRouteViolations (d : Device) : List Violation :=
  d.DeviceRoutes.filterMap fun r =>
    if wellFormedRoute r then none
    else some (Violation.malformedRoute r.RouteNetwork r.RouteGateway)

/-- Modelled from the spec: each `Vlan` carries the same cidr/dhcp
mutual-exclusivity rule, scoped to its VLAN ID. -/
def deviceVlanViolations (d : Device) : List Violation :=
  d.DeviceVlans.filterMap fun v =>
    if v.VlanCIDR ≠ "" ∧ v.VlanDHCP = true then
      some (Violation.vlanCidrDhcpExclusive v.VlanID)
    else none

/-- `validate` — Modelled from the spec: the device validator is not under
src/; it returns all violations found (not just the first), collecting the
checks of spec section 4.3 in order. -/
def validateDevice (d : Device) : List Violation :=
  deviceCidrDhcpViolations d ++ deviceDummyBondViolations d ++
  deviceBondIfaceViolations d ++ deviceVlanIDViolations d ++
  deviceCidrSyntaxViolations d ++ deviceRouteViolations d ++
  deviceVlanViolations d

/-- Claim C5: a device with non-empty `cidr` and `dhcp=true` validates to a
non-empty violation list containing the cidr/dhcp mutual-exclusivity rule;
a device with empty `cidr` and `dhcp=false` reports no such violation. -/
theorem claim5_validate_cidr_dhcp (d : Device) :
    (d.DeviceCIDR ≠ "" → d.DeviceDHCP = true →
      Violation.cidrDhcpExclusive ∈ validateDevice d ∧ validateDevice d ≠ []) ∧
    (d.DeviceCIDR = "" → d.DeviceDHCP = false →
      Violation.cidrDhcpExclusive ∉ validateDevice d) := by
  constructor
  · intro h1 h2
    have hmem : Violation.cidrDhcpExclusive ∈ deviceCidrDhcpViolations d := by
      simp [deviceCidrDhcpViolations, h1, h2]
    have hm : Violation.cidrDhcpExclusive ∈ validateDevice d := by
      unfold validateDevice
      exact List.mem_append_left _ (List.mem_append_left _
        (List.mem_append_left _ (List.mem_append_left _
          (List.mem_append_left _ (List.mem_append_left _ hmem)))))
    exact ⟨hm, List.ne_nil_of_mem hm⟩
  · intro h1 h2
    unfold validateDevice
    simp only [List.mem_append, not_or]
    refine ⟨⟨⟨⟨⟨⟨?_, ?_⟩, ?_⟩, ?_⟩, ?_⟩, ?_⟩, ?_⟩
    · simp [deviceCidrDhcpViolations, h1]
    · unfold deviceDummyBondViolations
      split <;> simp
    · unfold deviceBondIfaceViolations
      split
      · split <;> simp
      · simp
    · unfold deviceVlanIDViolations
      split <;> simp
    · unfold deviceCidrSyntaxViolations
      split <;> simp
    · simp only [deviceRouteViolations, List.mem_filterMap, not_exists, not_and]
      intro r hr
      split <;> simp
    · simp only [deviceVlanViolations, List.mem_filterMap, not_exists, not_and]
      intro v hv
      split <;> simp

/-- Witness for C5 at the spec's example device (`cidr="10.0.0.5/24"`,
`dhcp=true`): the mutual-exclusivity violation is reported. -/
theorem claim5_validate_cidr_dhcp_witness :
    Violation.cidrDhcpExclusive ∈ validateDevice
      { DeviceInterface := "eth0"
        DeviceCIDR := "10.0.0.5/24"
        DeviceRoutes := []
        DeviceBond := none
        DeviceVlans := []
        DeviceMTU := 0
        DeviceDHCP := true
        DeviceIgnore := false
        DeviceDummy := false
        DeviceDHCPOptions := none } :=
  ((claim5_validate_cidr_dhcp
    { DeviceInterface := "eth0"
      DeviceCIDR := "10.0.0.5/24"
      DeviceRoutes := []
      DeviceBond := none
      DeviceVlans := []
      DeviceMTU := 0
      DeviceDHCP := true
      DeviceIgnore := false
      DeviceDummy := false
      DeviceDHCPOptions := none }).1 (by decide) rfl).1

/-- `resolveSize` — Modelled from the spec: the partition-size resolution is
not under src/; per the spec and the `MachineDisks` documentation
(src/unnamed/part_000:339, "If `size:` is omitted, the partition is sized to
occupy full disk"): a non-zero `DiskSize` is used as-is, a zero `DiskSize`
takes the remaining disk capacity supplied by the caller. -/
def resolveSize (p : DiskPartition) (remainingDiskBytes : Nat) : Nat :=
  if p.DiskSize ≠ 0 then p.DiskSize else remainingDiskBytes

/-- Modelled from the spec: the capacity left on a disk after all earlier
partitions are accounted for. -/
def remainingAfter (totalDiskBytes : Nat) (earlier : List DiskPartition) : Nat :=
  totalDiskBytes - (earlier.map DiskPartition.DiskSize).sum

/-- Claim C6: `resolveSize` returns the partition's own size when non-zero
and the remaining disk capacity when the size is zero. -/
theorem claim6_resolveSize_spec (p : DiskPartition) (remainingDiskBytes : Nat) :
    (p.DiskSize ≠ 0 → resolveSize p remainingDiskBytes = p.DiskSize) ∧
    (p.DiskSize = 0 → resolveSize p remainingDiskBytes = remainingDiskBytes) := by
  refine ⟨?_, ?_⟩ <;> intro h <;> simp [resolveSize, h]

/-- Witness for C6 at the spec's example: on a 500000000-byte disk whose
first partition takes 100000000 bytes, the second, zero-sized partition
resolves to 400000000 bytes. -/
theorem claim6_resolveSize_witness :
    resolveSize { DiskSize := 0, DiskMountPoint := "/var/b" }
      (remainingAfter 500000000
        [{ DiskSize := 100000000, DiskMountPoint := "/var/a" }]) = 400000000 := by
  have h := (claim6_resolveSize_spec { DiskSize := 0, DiskMountPoint := "/var/b" }
    (remainingAfter 500000000
      [{ DiskSize := 100000000, DiskMountPoint := "/var/a" }])).2 rfl
  rw [h]
  rfl

end V1Alpha1
